import Mathlib

/-!
Verification of the request handler of `src/server.js` (pugchamp-open-authentication).

The handler (`app.get('/')`, lines 83-290) is embedded as a pure function
`OpenAuth.handle` over an explicit environment: the request's query parameter, the
result of the external SteamID parse, the three Steam Web API responses, and the
redis cache visible to this request (a store plus a set of keys whose reads reject).
The observable outcome of one request is a `HandlerResult`: the HTTP status sent,
the cache keys read, the cache writes issued (fire-and-forget `client.set` calls,
with their `PX` TTL argument), the `postUserAlert` invocations, and the number of
Steam API calls initiated.
-/

namespace OpenAuth

/-- A rule's `warnInterval` configuration value: either the literal string
`"never"`, or a duration string; the duration case carries `ms(...)`, the parsed
millisecond value (the `ms` library is external to the repository). -/
inductive WarnInterval
  | never
  | duration (px : Nat)
deriving DecidableEq, Repr

/-- One entry of the `checks` configuration list (`CHECKS`, server.js line 28).
Optional JS fields (guarded by `_.has` in the source) are modelled as `Option`. -/
structure Check where
  type : String
  ignore : Bool
  authorized : Option Bool
  warnInterval : Option WarnInterval
deriving DecidableEq, Repr

/-- One entry of the `authorizations` configuration list (`AUTHORIZATIONS`,
server.js line 27): the per-account override record. -/
structure Authorization where
  user : String
  performChecks : Option Bool
  ignoreChecks : Option (List String)
  forceChecks : Option (List String)
  authorized : Option Bool
deriving DecidableEq, Repr

/-- The fields of `summaryResult.players[0]` used by the handler (lines 136-154).
`profilestate` is a number whose JS truthiness is tested; 0 is falsy. -/
structure PlayerSummary where
  steamid : String
  profilestate : Nat
  communityvisibilitystate : Nat
deriving DecidableEq, Repr

/-- The fields of `gameResult.games[0]` used by the handler (lines 169-189). -/
structure GameInfo where
  appid : Nat
  playtime_forever : Nat
  playtime_2weeks : Nat
deriving DecidableEq, Repr

/-- The `getOwnedGames` response (lines 156-197): `game_count` is an optional
field (`_.has(gameResult, 'game_count')`), `games` the returned list. -/
structure GameResult where
  game_count : Option Nat
  games : List GameInfo
deriving DecidableEq, Repr

/-- The fields of `bansResult.players[0]` used by the handler (lines 203-235). -/
structure PlayerBans where
  SteamId : String
  VACBanned : Bool
  NumberOfGameBans : Nat
  CommunityBanned : Bool
  EconomyBan : String
deriving DecidableEq, Repr

/-- The three Steam Web API responses for this request. `none` stands for a
rejected promise or a response failing the falsiness checks that guard each
result (`!summaryResult || !summaryResult.players` and the like), all of which
throw before any field of the response is used. -/
structure SteamResponses where
  summaryResult : Option (List PlayerSummary)
  gameResult : Option GameResult
  bansResult : Option (List PlayerBans)
deriving DecidableEq, Repr

/-- A `client.set` call: key, serialized value, and the `PX` TTL argument in
milliseconds (`none` when no TTL is passed). -/
structure CacheWrite where
  key : String
  value : String
  px : Option Nat
deriving DecidableEq, Repr

/-- A `postUserAlert` invocation (server.js lines 50-72): its three arguments.
The second parameter is named `denied` in the source. -/
structure Alert where
  steamID : String
  denied : Bool
  reason : String
deriving DecidableEq, Repr

/-- The observable outcome of one request. -/
structure HandlerResult where
  status : Nat
  cacheReads : List String
  cacheWrites : List CacheWrite
  alerts : List Alert
  steamCalls : Nat
deriving DecidableEq, Repr

/-- The configuration read at startup (server.js lines 26-29).
`authorizationCacheTime` carries `ms(config.get('authorizationCacheTime'))`. -/
structure Config where
  authorizationCacheTime : Nat
  authorizations : List Authorization
  checks : List Check
  hourThreshold : Nat

/-- The environment of one request: the raw query parameter, the result of the
external SteamID parse/validation of that parameter (`none` when the constructor
throws or `isValid()` is false), the Steam API responses, and the cache: reads of
a key with `cacheFail` true reject, otherwise they return `cacheInit` (updated by
this request's own earlier writes, which redis processes in command order). -/
structure Env where
  query_user : Option String
  parsed : Option String
  steam : SteamResponses
  cacheFail : String → Bool
  cacheInit : String → Option String

/-- The decision cache key `open-authorization-${steam64}` (line 110). -/
def decisionKey (steam64 : String) : String :=
  "open-authorization-" ++ steam64

/-- The per-rule cache key `open-authorization-${steam64}-${check.type}`
(line 260). -/
def checkKey (steam64 t : String) : String :=
  "open-authorization-" ++ steam64 ++ "-" ++ t

/-- How redis serializes the JS booleans this service passes to `client.set`. -/
def boolStr (b : Bool) : String :=
  if b then "true" else "false"

/-- Models `JSON.parse` on the payloads relevant here, returning the JS
truthiness of the parsed value: the boolean serializations this service writes,
plus `null` and natural number literals; any other payload is treated as a parse
error (`none`), which the caller catches. -/
def jsonParseTruthy (s : String) : Option Bool :=
  if s = "true" then some true
  else if s = "false" then some false
  else if s = "null" then some false
  else if s.data ≠ [] ∧ s.data.all Char.isDigit then
    some (s.data.any (fun c => c ≠ '0'))
  else none

/-- Zero-pads a minute count below 10 to two digits. -/
def pad2 (n : Nat) : String :=
  if n < 10 then "0" ++ toString n else toString n

/-- Models `moment.duration(m, 'minutes').format('h:mm')` (line 176). -/
def formatHoursMinutes (m : Nat) : String :=
  toString (m / 60) ++ ":" ++ pad2 (m % 60)

/-- Models `moment.duration(m, 'minutes').format('w[w] d[d] h:mm')` (line 184). -/
def formatWeeksDays (m : Nat) : String :=
  toString (m / 10080) ++ "w " ++ toString (m % 10080 / 1440) ++ "d " ++
    toString (m % 1440 / 60) ++ ":" ++ pad2 (m % 60)

/-- The flags set from the player summary (lines 142-154), in insertion order.
Flags are the entries of the `flags` Map, keyed by type, carrying the detail. -/
def summaryFlags (p : PlayerSummary) : List (String × String) :=
  (if p.profilestate = 0 then [("profileNotSetUp", "profile not set up")] else []) ++
    (if p.communityvisibilitystate ≠ 3 then
      [("privateProfile", "has a private profile")] else [])

/-- The flags set from the owned-games response (lines 167-197); `none` when the
section throws (`games[0]` absent so the field access throws, or the returned
game is not appid 440). When `game_count` is absent the section is skipped. -/
def gameFlags (hourThreshold : Nat) (g : GameResult) : Option (List (String × String)) :=
  match g.game_count with
  | none => some []
  | some count =>
    if count > 0 then
      match g.games.head? with
      | none => none
      | some gameInfo =>
        if gameInfo.appid ≠ 440 then none
        else some (
          (if gameInfo.playtime_forever < hourThreshold * 60 then
            [("lowPlaytime",
              "has only " ++ formatHoursMinutes gameInfo.playtime_forever ++
                " on record for TF2")] else []) ++
          (if gameInfo.playtime_2weeks > 20160 then
            [("impossiblePlaytime",
              "has an impossible " ++ formatWeeksDays gameInfo.playtime_2weeks ++
                " in the past two weeks for TF2")] else []))
    else some [("noOwnership", "does not own TF2")]

/-- The flags set from the ban record (lines 209-235), in insertion order. -/
def bansFlags (b : PlayerBans) : List (String × String) :=
  (if b.VACBanned then [("vacBans", "VAC bans on record")] else []) ++
    (if b.NumberOfGameBans > 0 then
      [("gameBans", toString b.NumberOfGameBans ++ " game bans on record")] else []) ++
    (if b.CommunityBanned then [("communityBan", "banned from Steam Community")] else []) ++
    (if b.EconomyBan ≠ "none" then
      [("economyBan", "current trade status is " ++ b.EconomyBan)] else [])

/-- The result of the signal-collection block (lines 132-236): how many Steam API
calls were initiated, and the collected flag map (`none` when the block threw). -/
structure CollectResult where
  steamCalls : Nat
  outcome : Option (List (String × String))
deriving Repr

/-- The signal-collection block (lines 132-236): the summary, owned-games and ban
calls in order, each validated before its flags are added; a failed validation
throws, skipping the remaining calls. -/
def collectFlags (hourThreshold : Nat) (steam : SteamResponses) (steam64 : String) :
    CollectResult :=
  match steam.summaryResult with
  | none => ⟨1, none⟩
  | some players =>
    match players.head? with
    | none => ⟨1, none⟩
    | some playerSummary =>
      if playerSummary.steamid ≠ steam64 then ⟨1, none⟩
      else
        match steam.gameResult with
        | none => ⟨2, none⟩
        | some gameResult =>
          match gameFlags hourThreshold gameResult with
          | none => ⟨2, none⟩
          | some gFlags =>
            match steam.bansResult with
            | none => ⟨3, none⟩
            | some bplayers =>
              match bplayers.head? with
              | none => ⟨3, none⟩
              | some playerBans =>
                if playerBans.SteamId ≠ steam64 then ⟨3, none⟩
                else ⟨3, some (summaryFlags playerSummary ++ gFlags ++ bansFlags playerBans)⟩

/-- Line 131: `!playerAuthorization || !_.has(playerAuthorization, 'performChecks')
|| playerAuthorization.performChecks`. -/
def shouldPerformChecks (pa : Option Authorization) : Bool :=
  match pa with
  | none => true
  | some a =>
    match a.performChecks with
    | none => true
    | some b => b

/-- Line 243: the override lists this check type in `forceChecks`. -/
def inForceChecks (pa : Option Authorization) (t : String) : Bool :=
  match pa with
  | none => false
  | some a =>
    match a.forceChecks with
    | none => false
    | some l => l.contains t

/-- Line 248: the override lists this check type in `ignoreChecks`. -/
def inIgnoreChecks (pa : Option Authorization) (t : String) : Bool :=
  match pa with
  | none => false
  | some a =>
    match a.ignoreChecks with
    | none => false
    | some l => l.contains t

/-- Lines 242-251: the check is not skipped by `continue`. -/
def applicable (pa : Option Authorization) (check : Check) : Bool :=
  if check.ignore then inForceChecks pa check.type
  else !(inIgnoreChecks pa check.type)

/-- A check "triggers" in an evaluation when it is applicable and the flag map
contains its type (the branch at line 253 is taken). -/
def triggers (pa : Option Authorization) (flags : List (String × String))
    (check : Check) : Bool :=
  applicable pa check && (flags.lookup check.type).isSome

/-- A check that triggers and carries a fixed `authorized` outcome (line 256),
hence writes the running aggregate. -/
def contributes (pa : Option Authorization) (flags : List (String × String))
    (check : Check) : Bool :=
  triggers pa flags check && check.authorized.isSome

/-- The mutable state of the checks loop (lines 238-273): the running aggregate
`authorized`, the alert `details`, the cache contents as visible to later reads
of this request, and the read/write logs; `failed` records that a cache read
rejected, which aborts the loop (the exception propagates to line 285). -/
structure LoopState where
  authorized : Bool
  details : List String
  store : String → Option String
  cacheReads : List String
  cacheWrites : List CacheWrite
  failed : Bool

/-- The state at line 238-239: `authorized = true`, no details yet. -/
def initState (store : String → Option String) : LoopState :=
  ⟨true, [], store, [], [], false⟩

/-- The `PX` TTL for a per-rule write (lines 265-270): a TTL only when
`warnInterval` is present and not `"never"`. -/
def warnTTL (check : Check) : Option Nat :=
  match check.warnInterval with
  | some (.duration px) => some px
  | _ => none

/-- Lines 262-271, taken when the per-rule key read back falsy: push the detail
and write the triggered flag (`false`, serialized) under the warn-interval
policy. -/
def triggerStep (st : LoopState) (detail key : String) (check : Check) : LoopState :=
  { st with
    details := st.details ++ [detail]
    store := fun k => if k = key then some "false" else st.store k
    cacheWrites := st.cacheWrites ++ [⟨key, "false", warnTTL check⟩] }

/-- One iteration of the checks loop (lines 241-273) for one configured check.
When a previous iteration failed the loop has already been aborted, so the state
passes through unchanged. -/
def stepCheck (pa : Option Authorization) (flags : List (String × String))
    (cacheFail : String → Bool) (steam64 : String) (st : LoopState)
    (check : Check) : LoopState :=
  if st.failed then st
  else if !(applicable pa check) then st
  else
    match flags.lookup check.type with
    | none => st
    | some detail =>
      let st1 :=
        match check.authorized with
        | some b => { st with authorized := b }
        | none => st
      let key := checkKey steam64 check.type
      let st2 := { st1 with cacheReads := st1.cacheReads ++ [key] }
      if cacheFail key then { st2 with failed := true }
      else
        match st2.store key with
        | some v => if v = "" then triggerStep st2 detail key check else st2
        | none => triggerStep st2 detail key check

/-- The checks loop (lines 241-273) over the configured check list. -/
def runChecks (pa : Option Authorization) (flags : List (String × String))
    (cacheFail : String → Bool) (steam64 : String) (checks : List Check)
    (st : LoopState) : LoopState :=
  checks.foldl (stepCheck pa flags cacheFail steam64) st

/-- Lines 275-277: the per-account `authorized` override, when present,
replaces the aggregate. -/
def finalAuthorized (pa : Option Authorization) (st : LoopState) : Bool :=
  match pa with
  | some a => a.authorized.getD st.authorized
  | none => st.authorized

/-- Lines 275-283 (plus the abort path of the loop): the final override, the
alert (note: line 280 passes `authorized` as `postUserAlert`'s `denied`
parameter), the decision-cache write, and the response status. -/
def finishEval (cfg : Config) (steam64 : String) (pa : Option Authorization)
    (calls : Nat) (st : LoopState) : HandlerResult :=
  if st.failed then
    ⟨500, decisionKey steam64 :: st.cacheReads, st.cacheWrites, [], calls⟩
  else
    ⟨if finalAuthorized pa st then 200 else 403,
      decisionKey steam64 :: st.cacheReads,
      st.cacheWrites ++
        [⟨decisionKey steam64, boolStr (finalAuthorized pa st),
          some cfg.authorizationCacheTime⟩],
      if st.details.length > 0 then
        [⟨steam64, finalAuthorized pa st, String.intercalate "; " st.details⟩]
      else [],
      calls⟩

/-- Lines 129-236: signal collection, skipped when the override disables checks
(in which case the flag map stays empty and no Steam call is made). -/
def collectPhase (cfg : Config) (env : Env) (pa : Option Authorization)
    (steam64 : String) : CollectResult :=
  if shouldPerformChecks pa then collectFlags cfg.hourThreshold env.steam steam64
  else ⟨0, some []⟩

/-- The fresh (non-cache-hit) evaluation for a given override lookup result:
collection, the checks loop, and the finish; a throw during collection reaches
the catch at line 285 (status 500) with the decision read as the only cache
access. -/
def freshEvalWith (cfg : Config) (env : Env) (steam64 : String)
    (pa : Option Authorization) : HandlerResult :=
  match (collectPhase cfg env pa steam64).outcome with
  | none => ⟨500, [decisionKey steam64], [], [], (collectPhase cfg env pa steam64).steamCalls⟩
  | some flags =>
    finishEval cfg steam64 pa (collectPhase cfg env pa steam64).steamCalls
      (runChecks pa flags env.cacheFail steam64 cfg.checks (initState env.cacheInit))

/-- The fresh evaluation, with the override looked up as at line 107:
`_.find(AUTHORIZATIONS, authorization => authorization.user === steam64)`. -/
def freshEval (cfg : Config) (env : Env) (steam64 : String) : HandlerResult :=
  freshEvalWith cfg env steam64 (cfg.authorizations.find? (fun a => a.user == steam64))

/-- The guarded decision-key read (lines 109-127): `some b` when the read yields
a non-empty payload of JS truthiness `b`; `none` when the key is absent, the
read rejects, or the payload fails to parse (the catch falls through to the
fresh evaluation in each of those cases). -/
def decisionReadVal (env : Env) (steam64 : String) : Option Bool :=
  if env.cacheFail (decisionKey steam64) then none
  else
    match env.cacheInit (decisionKey steam64) with
    | none => none
    | some s => if s = "" then none else jsonParseTruthy s

/-- The response to a missing or unparseable or invalid identifier
(lines 85-103): status 403 before any cache or Steam access. -/
def invalidResult : HandlerResult :=
  ⟨403, [], [], [], 0⟩

/-- The whole request handler (`app.get('/')`, server.js lines 83-290). -/
def handle (cfg : Config) (env : Env) : HandlerResult :=
  match env.query_user with
  | none => invalidResult
  | some u =>
    if u = "" then invalidResult
    else
      match env.parsed with
      | none => invalidResult
      | some steam64 =>
        match decisionReadVal env steam64 with
        | some b => ⟨if b then 200 else 403, [decisionKey steam64], [], [], 0⟩
        | none => freshEval cfg env steam64

end OpenAuth

namespace OpenAuth

/-! Helper lemmas about association-list lookup and the checks loop. -/

theorem lookup_cons_self (k : String) (v : String) (l : List (String × String)) :
    List.lookup k ((k, v) :: l) = some v := by
  simp [List.lookup]

theorem lookup_cons_ne (k k' : String) (v : String) (l : List (String × String))
    (h : k ≠ k') : List.lookup k ((k', v) :: l) = List.lookup k l := by
  have hb : (k == k') = false := beq_eq_false_iff_ne.mpr h
  simp [List.lookup, hb]

theorem lookup_append_none (k : String) (l1 l2 : List (String × String))
    (h : l1.lookup k = none) : (l1 ++ l2).lookup k = l2.lookup k := by
  induction l1 with
  | nil => rfl
  | cons p l ih =>
    obtain ⟨k', v⟩ := p
    by_cases hk : k = k'
    · subst hk
      rw [lookup_cons_self] at h
      exact absurd h (by simp)
    · rw [lookup_cons_ne k k' v l hk] at h
      rw [List.cons_append, lookup_cons_ne k k' v (l ++ l2) hk]
      exact ih h

theorem lookup_append_some (k : String) (v : String) (l1 l2 : List (String × String))
    (h : l1.lookup k = some v) : (l1 ++ l2).lookup k = some v := by
  induction l1 with
  | nil => simp [List.lookup] at h
  | cons p l ih =>
    obtain ⟨k', v'⟩ := p
    by_cases hk : k = k'
    · subst hk
      rw [lookup_cons_self] at h
      rw [List.cons_append, lookup_cons_self]
      exact h
    · rw [lookup_cons_ne k k' v' l hk] at h
      rw [List.cons_append, lookup_cons_ne k k' v' (l ++ l2) hk]
      exact ih h

theorem stepCheck_of_failed (pa : Option Authorization) (flags : List (String × String))
    (cf : String → Bool) (s64 : String) (st : LoopState) (c : Check)
    (h : st.failed = true) : stepCheck pa flags cf s64 st c = st := by
  simp [stepCheck, h]

theorem stepCheck_failed_rev (pa : Option Authorization) (flags : List (String × String))
    (cf : String → Bool) (s64 : String) (st : LoopState) (c : Check)
    (h : (stepCheck pa flags cf s64 st c).failed = false) : st.failed = false := by
  by_cases hf : st.failed = true
  · rw [stepCheck_of_failed pa flags cf s64 st c hf] at h
    exact absurd h (by simp [hf])
  · simpa using hf

theorem stepCheck_nil_flags (pa : Option Authorization) (cf : String → Bool)
    (s64 : String) (st : LoopState) (c : Check) :
    stepCheck pa [] cf s64 st c = st := by
  unfold stepCheck
  split
  · rfl
  · split
    · rfl
    · rfl

theorem stepCheck_authorized (pa : Option Authorization) (flags : List (String × String))
    (cf : String → Bool) (s64 : String) (st : LoopState) (c : Check)
    (h : st.failed = false) :
    (stepCheck pa flags cf s64 st c).authorized =
      if contributes pa flags c then c.authorized.getD st.authorized
      else st.authorized := by
  cases happ : applicable pa c with
  | false => simp [stepCheck, contributes, triggers, h, happ]
  | true =>
    cases hlk : flags.lookup c.type with
    | none => simp [stepCheck, contributes, triggers, h, happ, hlk]
    | some detail =>
      cases hca : c.authorized with
      | none =>
        cases hcf : cf (checkKey s64 c.type) with
        | true => simp [stepCheck, contributes, triggers, h, happ, hlk, hca, hcf]
        | false =>
          cases hstore : st.store (checkKey s64 c.type) with
          | none =>
            simp [stepCheck, contributes, triggers, triggerStep, h, happ, hlk, hca,
              hcf, hstore]
          | some v =>
            by_cases hv : v = "" <;>
              simp [stepCheck, contributes, triggers, triggerStep, h, happ, hlk, hca,
                hcf, hstore, hv]
      | some b =>
        cases hcf : cf (checkKey s64 c.type) with
        | true => simp [stepCheck, contributes, triggers, h, happ, hlk, hca, hcf]
        | false =>
          cases hstore : st.store (checkKey s64 c.type) with
          | none =>
            simp [stepCheck, contributes, triggers, triggerStep, h, happ, hlk, hca,
              hcf, hstore]
          | some v =>
            by_cases hv : v = "" <;>
              simp [stepCheck, contributes, triggers, triggerStep, h, happ, hlk, hca,
                hcf, hstore, hv]

theorem runChecks_nil (pa : Option Authorization) (flags : List (String × String))
    (cf : String → Bool) (s64 : String) (st : LoopState) :
    runChecks pa flags cf s64 [] st = st := rfl

theorem runChecks_cons (pa : Option Authorization) (flags : List (String × String))
    (cf : String → Bool) (s64 : String) (c : Check) (l : List Check) (st : LoopState) :
    runChecks pa flags cf s64 (c :: l) st =
      runChecks pa flags cf s64 l (stepCheck pa flags cf s64 st c) := rfl

theorem runChecks_append (pa : Option Authorization) (flags : List (String × String))
    (cf : String → Bool) (s64 : String) (l1 l2 : List Check) (st : LoopState) :
    runChecks pa flags cf s64 (l1 ++ l2) st =
      runChecks pa flags cf s64 l2 (runChecks pa flags cf s64 l1 st) :=
  List.foldl_append _ _ _ _

theorem runChecks_nil_flags (pa : Option Authorization) (cf : String → Bool)
    (s64 : String) (l : List Check) (st : LoopState) :
    runChecks pa [] cf s64 l st = st := by
  induction l generalizing st with
  | nil => rfl
  | cons c l ih =>
    rw [runChecks_cons, stepCheck_nil_flags]
    exact ih st

theorem runChecks_of_failed (pa : Option Authorization) (flags : List (String × String))
    (cf : String → Bool) (s64 : String) (l : List Check) (st : LoopState)
    (h : st.failed = true) : runChecks pa flags cf s64 l st = st := by
  induction l with
  | nil => rfl
  | cons c l ih =>
    rw [runChecks_cons, stepCheck_of_failed pa flags cf s64 st c h]
    exact ih

theorem runChecks_failed_rev (pa : Option Authorization) (flags : List (String × String))
    (cf : String → Bool) (s64 : String) (l : List Check) (st : LoopState)
    (h : (runChecks pa flags cf s64 l st).failed = false) : st.failed = false := by
  by_cases hf : st.failed = true
  · rw [runChecks_of_failed pa flags cf s64 l st hf] at h
    exact absurd h (by simp [hf])
  · simpa using hf

theorem runChecks_no_contrib (pa : Option Authorization) (flags : List (String × String))
    (cf : String → Bool) (s64 : String) (l : List Check) (st : LoopState)
    (hnc : ∀ c ∈ l, contributes pa flags c = false)
    (h : (runChecks pa flags cf s64 l st).failed = false) :
    (runChecks pa flags cf s64 l st).authorized = st.authorized := by
  induction l generalizing st with
  | nil => rfl
  | cons c l ih =>
    rw [runChecks_cons] at h ⊢
    have hst1 : (stepCheck pa flags cf s64 st c).failed = false :=
      runChecks_failed_rev pa flags cf s64 l _ h
    have hst : st.failed = false := stepCheck_failed_rev pa flags cf s64 st c hst1
    have ha : (stepCheck pa flags cf s64 st c).authorized = st.authorized := by
      rw [stepCheck_authorized pa flags cf s64 st c hst, hnc c (by simp)]
      simp
    rw [ih _ (fun x hx => hnc x (by simp [hx])) h, ha]

end OpenAuth

namespace OpenAuth

theorem collectFlags_outcome_eq (ht : Nat) (steam : SteamResponses) (s64 : String)
    (flags : List (String × String))
    (h : (collectFlags ht steam s64).outcome = some flags) :
    ∃ players p g gF bplayers b,
      steam.summaryResult = some players ∧ players.head? = some p ∧ p.steamid = s64 ∧
      steam.gameResult = some g ∧ gameFlags ht g = some gF ∧
      steam.bansResult = some bplayers ∧ bplayers.head? = some b ∧ b.SteamId = s64 ∧
      flags = summaryFlags p ++ gF ++ bansFlags b := by
  unfold collectFlags at h
  split at h
  · simp at h
  · rename_i players hsr
    split at h
    · simp at h
    · rename_i p hph
      split at h
      · simp at h
      · rename_i hid
        split at h
        · simp at h
        · rename_i g hgr
          split at h
          · simp at h
          · rename_i gF hgf
            split at h
            · simp at h
            · rename_i bplayers hbr
              split at h
              · simp at h
              · rename_i b hbh
                split at h
                · simp at h
                · rename_i hbid
                  simp only [Option.some.injEq] at h
                  exact ⟨players, p, g, gF, bplayers, b, hsr, hph, not_not.mp hid,
                    hgr, hgf, hbr, hbh, not_not.mp hbid, h.symm⟩

end OpenAuth

namespace OpenAuth

theorem summaryFlags_lookup_other (p : PlayerSummary) (k : String)
    (h1 : k ≠ "profileNotSetUp") (h2 : k ≠ "privateProfile") :
    (summaryFlags p).lookup k = none := by
  have hb1 : (k == "profileNotSetUp") = false := beq_eq_false_iff_ne.mpr h1
  have hb2 : (k == "privateProfile") = false := beq_eq_false_iff_ne.mpr h2
  unfold summaryFlags
  split_ifs <;> simp [List.lookup, hb1, hb2]

theorem gameFlags_lookup_other (ht : Nat) (g : GameResult)
    (gF : List (String × String)) (hg : gameFlags ht g = some gF) (k : String)
    (h1 : k ≠ "lowPlaytime") (h2 : k ≠ "impossiblePlaytime")
    (h3 : k ≠ "noOwnership") : gF.lookup k = none := by
  have hb1 : (k == "lowPlaytime") = false := beq_eq_false_iff_ne.mpr h1
  have hb2 : (k == "impossiblePlaytime") = false := beq_eq_false_iff_ne.mpr h2
  have hb3 : (k == "noOwnership") = false := beq_eq_false_iff_ne.mpr h3
  unfold gameFlags at hg
  split at hg
  · simp only [Option.some.injEq] at hg
    subst hg
    rfl
  · split at hg
    · split at hg
      · simp at hg
      · split at hg
        · simp at hg
        · simp only [Option.some.injEq] at hg
          subst hg
          split_ifs <;> simp [List.lookup, hb1, hb2]
    · simp only [Option.some.injEq] at hg
      subst hg
      simp [List.lookup, hb3]

theorem bansFlags_lookup_other (b : PlayerBans) (k : String)
    (h1 : k ≠ "vacBans") (h2 : k ≠ "gameBans") (h3 : k ≠ "communityBan")
    (h4 : k ≠ "economyBan") : (bansFlags b).lookup k = none := by
  have hb1 : (k == "vacBans") = false := beq_eq_false_iff_ne.mpr h1
  have hb2 : (k == "gameBans") = false := beq_eq_false_iff_ne.mpr h2
  have hb3 : (k == "communityBan") = false := beq_eq_false_iff_ne.mpr h3
  have hb4 : (k == "economyBan") = false := beq_eq_false_iff_ne.mpr h4
  unfold bansFlags
  split_ifs <;> simp [List.lookup, hb1, hb2, hb3, hb4]

theorem bansFlags_lookup_gameBans (b : PlayerBans) :
    (bansFlags b).lookup "gameBans" =
      if 0 < b.NumberOfGameBans then
        some (toString b.NumberOfGameBans ++ " game bans on record")
      else none := by
  unfold bansFlags
  split_ifs <;> simp_all [List.lookup]

theorem gameFlags_count_zero (ht : Nat) (g : GameResult)
    (h : g.game_count = some 0) :
    gameFlags ht g = some [("noOwnership", "does not own TF2")] := by
  unfold gameFlags
  rw [h]
  simp

end OpenAuth

namespace OpenAuth

theorem getLast_append_single (l : List CacheWrite) (a : CacheWrite) :
    (l ++ [a]).getLast? = some a := by
  rw [List.getLast?_append_cons]
  rfl

/-- Reduction of the handler to the fresh-evaluation path when the decision-key
read does not produce a usable payload. -/
theorem handle_fresh (cfg : Config) (env : Env) (u s64 : String)
    (hq : env.query_user = some u) (hu : u ≠ "") (hp : env.parsed = some s64)
    (hread : decisionReadVal env s64 = none) :
    handle cfg env =
      freshEvalWith cfg env s64 (cfg.authorizations.find? (fun a => a.user == s64)) := by
  simp [handle, freshEval, hq, hu, hp, hread]

/-- Reduction of the fresh evaluation when signal collection succeeds. -/
theorem freshEvalWith_some (cfg : Config) (env : Env) (s64 : String)
    (pa : Option Authorization) (flags : List (String × String))
    (h : (collectPhase cfg env pa s64).outcome = some flags) :
    freshEvalWith cfg env s64 pa =
      finishEval cfg s64 pa (collectPhase cfg env pa s64).steamCalls
        (runChecks pa flags env.cacheFail s64 cfg.checks (initState env.cacheInit)) := by
  unfold freshEvalWith
  rw [h]

/-- Reduction of the fresh evaluation when signal collection throws. -/
theorem freshEvalWith_none (cfg : Config) (env : Env) (s64 : String)
    (pa : Option Authorization)
    (h : (collectPhase cfg env pa s64).outcome = none) :
    freshEvalWith cfg env s64 pa =
      ⟨500, [decisionKey s64], [], [], (collectPhase cfg env pa s64).steamCalls⟩ := by
  unfold freshEvalWith
  rw [h]

/-! Concrete fixtures used by witnesses and counterexamples. -/

/-- A fixture SteamID64. -/
def s64ex : String := "76561198000000001"

/-- A summary fixture: profile set up and public. -/
def summaryOk : PlayerSummary := ⟨s64ex, 1, 3⟩

/-- Steam responses with a VAC ban on record, `game_count` absent (so the
owned-games section is skipped) and nothing else flagged. -/
def steamVac : SteamResponses :=
  { summaryResult := some [summaryOk]
    gameResult := some ⟨none, []⟩
    bansResult := some [⟨s64ex, true, 0, false, "none"⟩] }

/-- Steam responses with TF2 owned at 30 minutes total playtime and a clean ban
record. -/
def steamLowPlay : SteamResponses :=
  { summaryResult := some [summaryOk]
    gameResult := some ⟨some 1, [⟨440, 30, 0⟩]⟩
    bansResult := some [⟨s64ex, false, 0, false, "none"⟩] }

/-- A base environment: parseable identifier, all cache reads succeed, cache
empty. -/
def envBase : Env :=
  { query_user := some "x", parsed := some s64ex, steam := steamVac
    cacheFail := fun _ => false, cacheInit := fun _ => none }

/-- A configuration with a single non-ignored vacBans rule carrying no fixed
outcome and no warn-interval. -/
def cfgVacNoWarn : Config :=
  { authorizationCacheTime := 3600000
    authorizations := []
    checks := [⟨"vacBans", false, none, none⟩]
    hourThreshold := 9 }

/-- C4: for every request whose decision-key cache lookup succeeds with a cached
boolean, the response status is exactly that boolean (200 when authorized, 403
when denied), the only cache access is the decision-key read, and no cache
write, no alert and no Steam API call happens in that request. -/
theorem c4_theorem (cfg : Config) (env : Env) (u s64 : String) (b : Bool)
    (hq : env.query_user = some u) (hu : u ≠ "") (hp : env.parsed = some s64)
    (hcf : env.cacheFail (decisionKey s64) = false)
    (hci : env.cacheInit (decisionKey s64) = some (boolStr b)) :
    handle cfg env = ⟨if b then 200 else 403, [decisionKey s64], [], [], 0⟩ := by
  have hread : decisionReadVal env s64 = some b := by
    unfold decisionReadVal
    rw [hcf, hci]
    cases b <;> simp [boolStr, jsonParseTruthy]
  simp [handle, hq, hu, hp, hread]

/-- C4 witness: a cache hit with cached value `false` answers 403 and performs
nothing else. -/
theorem c4_witness :
    handle cfgVacNoWarn
        { envBase with
          cacheInit := fun k => if k == decisionKey s64ex then some "false" else none } =
      ⟨403, [decisionKey s64ex], [], [], 0⟩ :=
  c4_theorem _ _ "x" s64ex false rfl (by decide) rfl (by decide) (by decide)

/-- C5: on a fresh evaluation, when the matched override record carries an
explicit `authorized` value, the response status equals that value and the
decision written to the cache is that value - regardless of the configured rules,
the collected flags, and any fixed outcomes applied by the loop. -/
theorem c5_theorem (cfg : Config) (env : Env) (u s64 : String) (pa : Authorization)
    (v : Bool) (flags : List (String × String))
    (hq : env.query_user = some u) (hu : u ≠ "") (hp : env.parsed = some s64)
    (hread : decisionReadVal env s64 = none)
    (hfind : cfg.authorizations.find? (fun a => a.user == s64) = some pa)
    (hauth : pa.authorized = some v)
    (hcol : (collectPhase cfg env (some pa) s64).outcome = some flags)
    (hok : (runChecks (some pa) flags env.cacheFail s64 cfg.checks
      (initState env.cacheInit)).failed = false) :
    (handle cfg env).status = (if v then 200 else 403) ∧
    (handle cfg env).cacheWrites.getLast? =
      some ⟨decisionKey s64, boolStr v, some cfg.authorizationCacheTime⟩ := by
  have hfa : finalAuthorized (some pa)
      (runChecks (some pa) flags env.cacheFail s64 cfg.checks
        (initState env.cacheInit)) = v := by
    simp [finalAuthorized, hauth]
  rw [handle_fresh cfg env u s64 hq hu hp hread, hfind,
    freshEvalWith_some cfg env s64 (some pa) flags hcol]
  unfold finishEval
  rw [if_neg (by simp [hok]), hfa]
  exact ⟨rfl, getLast_append_single _ _⟩

/-- C5 witness: an override with `authorized: false` denies even though the only
triggered rule carries fixed outcome `authorized: true`. -/
theorem c5_witness :
    (handle
        { authorizationCacheTime := 3600000
          authorizations := [⟨s64ex, none, none, none, some false⟩]
          checks := [⟨"vacBans", false, some true, none⟩]
          hourThreshold := 9 }
        envBase).status = 403 := by
  have h := c5_theorem
    { authorizationCacheTime := 3600000
      authorizations := [⟨s64ex, none, none, none, some false⟩]
      checks := [⟨"vacBans", false, some true, none⟩]
      hourThreshold := 9 }
    envBase "x" s64ex ⟨s64ex, none, none, none, some false⟩ false
    [("vacBans", "VAC bans on record")]
    rfl (by decide) rfl (by decide) (by decide) rfl (by decide) (by decide)
  exact h.1

/-- C10: on a fresh evaluation for an account whose override disables checks
(`performChecks: false`) without specifying `authorized`, no Steam API call is
made, the flag map stays empty so nothing triggers, and the request succeeds
with `authorized = true` written to the decision cache. -/
theorem c10_theorem (cfg : Config) (env : Env) (u s64 : String) (pa : Authorization)
    (hq : env.query_user = some u) (hu : u ≠ "") (hp : env.parsed = some s64)
    (hcf : env.cacheFail (decisionKey s64) = false)
    (hci : env.cacheInit (decisionKey s64) = none)
    (hfind : cfg.authorizations.find? (fun a => a.user == s64) = some pa)
    (hpc : pa.performChecks = some false)
    (hauth : pa.authorized = none) :
    handle cfg env = ⟨200, [decisionKey s64],
      [⟨decisionKey s64, "true", some cfg.authorizationCacheTime⟩], [], 0⟩ := by
  have hread : decisionReadVal env s64 = none := by
    unfold decisionReadVal
    rw [hcf, hci]
    rfl
  have hcol : collectPhase cfg env (some pa) s64 = ⟨0, some []⟩ := by
    simp [collectPhase, shouldPerformChecks, hpc]
  rw [handle_fresh cfg env u s64 hq hu hp hread, hfind,
    freshEvalWith_some cfg env s64 (some pa) [] (by rw [hcol]),
    runChecks_nil_flags, hcol]
  unfold finishEval
  simp [initState, finalAuthorized, hauth, boolStr]

/-- C10 witness: the disabled-checks override on an account whose signals would
otherwise trigger the vacBans rule. -/
theorem c10_witness :
    handle
        { cfgVacNoWarn with
          authorizations := [⟨s64ex, some false, none, none, none⟩] }
        envBase =
      ⟨200, [decisionKey s64ex], [⟨decisionKey s64ex, "true", some 3600000⟩], [], 0⟩ :=
  c10_theorem _ _ "x" s64ex ⟨s64ex, some false, none, none, none⟩
    rfl (by decide) rfl (by decide) (by decide) (by decide) rfl rfl

end OpenAuth

namespace OpenAuth

/-- Steam responses with a VAC ban and two game bans on record, `game_count`
absent. -/
def steamVacGameBans : SteamResponses :=
  { summaryResult := some [summaryOk]
    gameResult := some ⟨none, []⟩
    bansResult := some [⟨s64ex, true, 2, false, "none"⟩] }

/-- A non-ignored vacBans rule with fixed outcome deny. -/
def checkVacDeny : Check := ⟨"vacBans", false, some false, none⟩

/-- A non-ignored gameBans rule with fixed outcome allow. -/
def checkGameBansAllow : Check := ⟨"gameBans", false, some true, none⟩

/-- Two rules with fixed outcomes, vacBans declared before gameBans. -/
def cfgC6 : Config :=
  { authorizationCacheTime := 3600000
    authorizations := []
    checks := [checkVacDeny, checkGameBansAllow]
    hourThreshold := 9 }

/-- The environment whose account has both a VAC ban and game bans. -/
def envC6 : Env := { envBase with steam := steamVacGameBans }

/-- The flag map collected in `envC6`. -/
def flagsC6 : List (String × String) :=
  [("vacBans", "VAC bans on record"), ("gameBans", "2 game bans on record")]

/-- C6: on a fresh evaluation with no per-account `authorized` override, when an
applicable rule with a fixed outcome triggers earlier in declaration order and
the LAST rule that triggers with a fixed outcome carries outcome `v` (no later
rule contributes one), the loop's aggregate authorization equals `v` - last
write wins in declaration order - and the response reflects `v`. -/
theorem c6_theorem (cfg : Config) (env : Env) (u s64 : String)
    (paOpt : Option Authorization) (flags : List (String × String))
    (pre suf : List Check) (cB : Check) (v : Bool)
    (hq : env.query_user = some u) (hu : u ≠ "") (hp : env.parsed = some s64)
    (hread : decisionReadVal env s64 = none)
    (hfind : cfg.authorizations.find? (fun a => a.user == s64) = paOpt)
    (hno : ∀ a, paOpt = some a → a.authorized = none)
    (hchecks : cfg.checks = pre ++ cB :: suf)
    (hcol : (collectPhase cfg env paOpt s64).outcome = some flags)
    (hpre : ∃ cA ∈ pre, contributes paOpt flags cA = true)
    (hcB : contributes paOpt flags cB = true)
    (hcBv : cB.authorized = some v)
    (hsuf : ∀ c ∈ suf, contributes paOpt flags c = false)
    (hok : (runChecks paOpt flags env.cacheFail s64 cfg.checks
      (initState env.cacheInit)).failed = false) :
    (runChecks paOpt flags env.cacheFail s64 cfg.checks
      (initState env.cacheInit)).authorized = v ∧
    (handle cfg env).status = (if v then 200 else 403) := by
  have hagg : (runChecks paOpt flags env.cacheFail s64 cfg.checks
      (initState env.cacheInit)).authorized = v := by
    rw [hchecks] at hok ⊢
    rw [show (pre ++ cB :: suf) = (pre ++ [cB]) ++ suf by simp] at hok ⊢
    rw [runChecks_append, runChecks_append] at hok ⊢
    rw [runChecks_cons, runChecks_nil] at hok ⊢
    set mid := runChecks paOpt flags env.cacheFail s64 pre (initState env.cacheInit)
      with hmid
    set X := stepCheck paOpt flags env.cacheFail s64 mid cB with hX
    have hXf : X.failed = false := runChecks_failed_rev _ _ _ _ _ _ hok
    have hmidf : mid.failed = false := stepCheck_failed_rev _ _ _ _ _ _ hXf
    have hXa : X.authorized = v := by
      rw [hX, stepCheck_authorized _ _ _ _ _ _ hmidf, hcB]
      simp [hcBv]
    rw [runChecks_no_contrib _ _ _ _ _ _ hsuf hok, hXa]
  refine ⟨hagg, ?_⟩
  have hfa : finalAuthorized paOpt (runChecks paOpt flags env.cacheFail s64 cfg.checks
      (initState env.cacheInit)) = v := by
    cases paOpt with
    | none => exact hagg
    | some a => simp [finalAuthorized, hno a rfl, hagg]
  rw [handle_fresh cfg env u s64 hq hu hp hread, hfind,
    freshEvalWith_some cfg env s64 paOpt flags hcol]
  unfold finishEval
  rw [if_neg (by simp [hok]), hfa]

/-- C6 witness: the earlier vacBans rule fixes deny, the later gameBans rule
fixes allow, both trigger; the aggregate and the response follow the
later-declared rule. -/
theorem c6_witness :
    (runChecks none flagsC6 envC6.cacheFail s64ex cfgC6.checks
      (initState envC6.cacheInit)).authorized = true ∧
    (handle cfgC6 envC6).status = 200 := by
  have h := c6_theorem cfgC6 envC6 "x" s64ex none flagsC6 [checkVacDeny] []
    checkGameBansAllow true rfl (by decide) rfl (by decide) rfl
    (fun a ha => nomatch ha) rfl (by decide)
    ⟨checkVacDeny, by decide, by decide⟩ (by decide) rfl
    (fun c hc => nomatch hc) (by decide)
  exact h

/-- C7: when the collected signals show TF2 not owned (`game_count` present and
zero), the flag map contains no playtime flag but does contain the noOwnership
flag; hence no configured check of type lowPlaytime or impossiblePlaytime can
trigger, while every applicable check of type noOwnership does trigger. -/
theorem c7_theorem (ht : Nat) (steam : SteamResponses) (s64 : String)
    (flags : List (String × String)) (g : GameResult)
    (hgr : steam.gameResult = some g) (hcount : g.game_count = some 0)
    (hc : (collectFlags ht steam s64).outcome = some flags) :
    (∀ pa c, (Check.type c = "lowPlaytime" ∨ Check.type c = "impossiblePlaytime") →
      triggers pa flags c = false) ∧
    (∀ pa c, Check.type c = "noOwnership" → applicable pa c = true →
      triggers pa flags c = true) := by
  obtain ⟨players, p, g2, gF, bplayers, b, hsr, hph, hpid, hgr2, hgf, hbr, hbh, hbid, hfl⟩ :=
    collectFlags_outcome_eq ht steam s64 flags hc
  rw [hgr] at hgr2
  injection hgr2 with hgg
  subst hgg
  have hgFe : gF = [("noOwnership", "does not own TF2")] := by
    have hz := gameFlags_count_zero ht g hcount
    rw [hgf] at hz
    exact Option.some.inj hz
  subst hgFe
  subst hfl
  have hlkn : ∀ k, k ≠ "profileNotSetUp" → k ≠ "privateProfile" → k ≠ "noOwnership" →
      k ≠ "vacBans" → k ≠ "gameBans" → k ≠ "communityBan" → k ≠ "economyBan" →
      (summaryFlags p ++ [("noOwnership", "does not own TF2")] ++ bansFlags b).lookup k =
        none := by
    intro k n1 n2 n3 n4 n5 n6 n7
    have h1 : (summaryFlags p).lookup k = none := summaryFlags_lookup_other p k n1 n2
    have h2 : (summaryFlags p ++ [("noOwnership", "does not own TF2")]).lookup k = none := by
      rw [lookup_append_none _ _ _ h1, lookup_cons_ne _ _ _ _ n3]
      rfl
    rw [lookup_append_none _ _ _ h2]
    exact bansFlags_lookup_other b k n4 n5 n6 n7
  constructor
  · intro pa c hty
    rcases hty with h | h
    · have hk := hlkn "lowPlaytime" (by decide) (by decide) (by decide) (by decide)
        (by decide) (by decide) (by decide)
      simp only [triggers, h, hk, Option.isSome_none, Bool.and_false]
    · have hk := hlkn "impossiblePlaytime" (by decide) (by decide) (by decide) (by decide)
        (by decide) (by decide) (by decide)
      simp only [triggers, h, hk, Option.isSome_none, Bool.and_false]
  · intro pa c hty happ
    have h1 : (summaryFlags p).lookup "noOwnership" = none :=
      summaryFlags_lookup_other p _ (by decide) (by decide)
    have h2 : (summaryFlags p ++ [("noOwnership", "does not own TF2")]).lookup "noOwnership" =
        some "does not own TF2" := by
      rw [lookup_append_none _ _ _ h1]
      exact lookup_cons_self _ _ _
    have h3 : ((summaryFlags p ++ [("noOwnership", "does not own TF2")]) ++
        bansFlags b).lookup "noOwnership" = some "does not own TF2" :=
      lookup_append_some _ _ _ _ h2
    simp only [triggers, hty, happ, h3, Option.isSome_some, Bool.and_self]

/-- Steam responses: TF2 not owned (`game_count` zero), clean ban record. -/
def steamNoOwn : SteamResponses :=
  { summaryResult := some [summaryOk]
    gameResult := some ⟨some 0, []⟩
    bansResult := some [⟨s64ex, false, 0, false, "none"⟩] }

/-- C7 witness: with TF2 not owned, a lowPlaytime check does not trigger and a
noOwnership check does. -/
theorem c7_witness :
    triggers none [("noOwnership", "does not own TF2")]
      ⟨"lowPlaytime", false, none, none⟩ = false ∧
    triggers none [("noOwnership", "does not own TF2")]
      ⟨"noOwnership", false, none, none⟩ = true := by
  have h := c7_theorem 9 steamNoOwn s64ex [("noOwnership", "does not own TF2")]
    ⟨some 0, []⟩ rfl rfl (by decide)
  exact ⟨h.1 none _ (Or.inl rfl), h.2 none _ rfl (by decide)⟩

end OpenAuth

namespace OpenAuth

/-- The C8 claim's trigger condition in the spec's words: the game-ban count is
above the RULE'S CONFIGURED threshold. The source's rule configuration (`Check`)
carries no such per-rule threshold and line 216 compares against the constant 0;
this definition exists only for comparison with the source behavior. -/
def gameBansTriggersSpec (threshold count : Nat) : Bool :=
  decide (threshold < count)

/-- C8 counterexample: with one game ban on record the source sets the gameBans
flag (its condition is the fixed `NumberOfGameBans > 0`, line 216) and an
applicable gameBans rule triggers, even though under the spec's words a
configured threshold of 5 would forbid triggering; the rule configuration the
source reads has no threshold field at all. -/
theorem c8_counterexample :
    gameBansTriggersSpec 5 1 = false ∧
    ((bansFlags ⟨s64ex, false, 1, false, "none"⟩).lookup "gameBans").isSome = true ∧
    triggers none (bansFlags ⟨s64ex, false, 1, false, "none"⟩)
      ⟨"gameBans", false, none, none⟩ = true := by
  decide

/-- C8 (amended): in any evaluation, an applicable gameBans rule triggers
exactly when the account's game-ban count exceeds ZERO - the threshold is the
constant 0 in the code, not read from the rule's configuration. -/
theorem c8_theorem (ht : Nat) (steam : SteamResponses) (s64 : String)
    (flags : List (String × String)) (bplayers : List PlayerBans) (b : PlayerBans)
    (pa : Option Authorization) (c : Check)
    (hbr : steam.bansResult = some bplayers) (hbh : bplayers.head? = some b)
    (hc : (collectFlags ht steam s64).outcome = some flags)
    (hty : c.type = "gameBans") (happ : applicable pa c = true) :
    (triggers pa flags c = true ↔ 0 < b.NumberOfGameBans) := by
  obtain ⟨players, p, g, gF, bplayers2, b2, hsr, hph, hpid, hgr, hgf, hbr2, hbh2, hbid, hfl⟩ :=
    collectFlags_outcome_eq ht steam s64 flags hc
  rw [hbr] at hbr2
  have hbb : bplayers = bplayers2 := Option.some.inj hbr2
  subst hbb
  rw [hbh] at hbh2
  have hb2 : b = b2 := Option.some.inj hbh2
  subst hb2
  subst hfl
  have h1 : (summaryFlags p).lookup "gameBans" = none :=
    summaryFlags_lookup_other p _ (by decide) (by decide)
  have h2 : gF.lookup "gameBans" = none :=
    gameFlags_lookup_other ht g gF hgf _ (by decide) (by decide) (by decide)
  have h12 : ((summaryFlags p) ++ gF).lookup "gameBans" = none := by
    rw [lookup_append_none _ _ _ h1]
    exact h2
  have hlk : ((summaryFlags p ++ gF) ++ bansFlags b).lookup "gameBans" =
      (bansFlags b).lookup "gameBans" := lookup_append_none _ _ _ h12
  simp only [triggers, hty, happ, hlk, bansFlags_lookup_gameBans, Bool.true_and]
  by_cases hn : 0 < b.NumberOfGameBans <;> simp [hn]

/-- C8 witness: with two game bans on record, an applicable gameBans rule
triggers. -/
theorem c8_witness :
    triggers none [("vacBans", "VAC bans on record"), ("gameBans", "2 game bans on record")]
      ⟨"gameBans", false, none, none⟩ = true :=
  (c8_theorem 9 steamVacGameBans s64ex
    [("vacBans", "VAC bans on record"), ("gameBans", "2 game bans on record")]
    [⟨s64ex, true, 2, false, "none"⟩] ⟨s64ex, true, 2, false, "none"⟩ none
    ⟨"gameBans", false, none, none⟩ rfl rfl (by decide) rfl (by decide)).mpr
    (by decide)

end OpenAuth

namespace OpenAuth

/-- C1 counterexample: one triggered vacBans rule with NO warnInterval
configured, fresh cache. The claim says no per-rule cache entry is written; the
handler in fact writes the per-rule key (serialized `false`, no TTL), together
with the decision key. -/
theorem c1_counterexample :
    (handle cfgVacNoWarn envBase).cacheWrites =
      [⟨checkKey s64ex "vacBans", "false", none⟩,
        ⟨decisionKey s64ex, "true", some 3600000⟩] := by
  decide

/-- C1 (amended): when an applicable rule triggers with no per-rule cache entry
and its warn-interval is ABSENT, a per-rule cache entry IS written - serialized
`false` with no TTL, exactly as for warn-interval `"never"` - and the written
entry is visible to later reads; consequently a later evaluation that finds such
an entry suppresses the rule's alert detail and writes nothing for that rule. -/
theorem c1_theorem :
    (∀ pa flags cf s64 st c detail, st.failed = false →
      applicable pa c = true → flags.lookup c.type = some detail →
      cf (checkKey s64 c.type) = false →
      st.store (checkKey s64 c.type) = none →
      c.warnInterval = none →
      (stepCheck pa flags cf s64 st c).cacheWrites =
        st.cacheWrites ++ [⟨checkKey s64 c.type, "false", none⟩] ∧
      (stepCheck pa flags cf s64 st c).store (checkKey s64 c.type) = some "false") ∧
    (∀ pa flags cf s64 st c detail, st.failed = false →
      applicable pa c = true → flags.lookup c.type = some detail →
      cf (checkKey s64 c.type) = false →
      st.store (checkKey s64 c.type) = some "false" →
      (stepCheck pa flags cf s64 st c).details = st.details ∧
      (stepCheck pa flags cf s64 st c).cacheWrites = st.cacheWrites) := by
  constructor
  · intro pa flags cf s64 st c detail h happ hlk hcf hstore hwi
    have hw : warnTTL c = none := by
      unfold warnTTL
      rw [hwi]
    cases hca : c.authorized <;>
      simp [stepCheck, triggerStep, h, happ, hlk, hcf, hstore, hca, hw]
  · intro pa flags cf s64 st c detail h happ hlk hcf hstore
    cases hca : c.authorized <;>
      simp [stepCheck, triggerStep, h, happ, hlk, hcf, hstore, hca]

/-- C1 witness: both halves of the amended claim at a concrete state - the
no-warn-interval write on first trigger, and the suppression once the entry
exists. -/
theorem c1_witness :
    (stepCheck none [("vacBans", "VAC bans on record")] (fun _ => false) s64ex
        (initState (fun _ => none)) ⟨"vacBans", false, none, none⟩).cacheWrites =
      [⟨checkKey s64ex "vacBans", "false", none⟩] ∧
    (stepCheck none [("vacBans", "VAC bans on record")] (fun _ => false) s64ex
        (initState (fun _ => some "false")) ⟨"vacBans", false, none, none⟩).details =
      [] := by
  constructor
  · exact (c1_theorem.1 none [("vacBans", "VAC bans on record")] (fun _ => false)
      s64ex (initState (fun _ => none)) ⟨"vacBans", false, none, none⟩
      "VAC bans on record" rfl (by decide) (by decide) rfl rfl rfl).1
  · exact (c1_theorem.2 none [("vacBans", "VAC bans on record")] (fun _ => false)
      s64ex (initState (fun _ => some "false")) ⟨"vacBans", false, none, none⟩
      "VAC bans on record" rfl (by decide) (by decide) rfl rfl).1

/-- The environment of an account with TF2 owned at 30 minutes playtime. -/
def envLowPlay : Env := { envBase with steam := steamLowPlay }

/-- A single non-denying lowPlaytime rule; the hour threshold is 1 hour. -/
def cfgLowPlay : Config :=
  { authorizationCacheTime := 3600000
    authorizations := []
    checks := [⟨"lowPlaytime", false, none, none⟩]
    hourThreshold := 1 }

/-- C2 (at the failing input): a fresh evaluation in which only the non-denying
lowPlaytime rule triggers ends authorized (status 200), yet `postUserAlert` is
invoked with its `denied` parameter TRUE: line 280 passes the final `authorized`
value - not its negation - as the `denied` argument, so the notifier receives
`denied = true` exactly when the decision is authorized. -/
theorem c2_theorem :
    (handle cfgLowPlay envLowPlay).status = 200 ∧
    (handle cfgLowPlay envLowPlay).alerts =
      [⟨s64ex, true, "has only 0:30 on record for TF2"⟩] := by
  decide

end OpenAuth

namespace OpenAuth

/-- An environment in which the decision-key read rejects. -/
def envDecisionFail : Env :=
  { envBase with cacheFail := fun k => k == decisionKey s64ex }

/-- An environment in which the decision key holds an unparseable payload. -/
def envDecisionJunk : Env :=
  { envBase with
    cacheInit := fun k => if k == decisionKey s64ex then some "junk" else none }

/-- An environment in which the vacBans per-rule key read rejects. -/
def envRuleReadFail : Env :=
  { envBase with cacheFail := fun k => k == checkKey s64ex "vacBans" }

/-- C3 counterexample: a per-rule cache read failure during the checks loop is
NOT treated as a miss - the exception reaches the catch at line 285 and the
request answers 500, refuting "no cache read failure ever causes the request to
return an error response". -/
theorem c3_counterexample :
    (handle cfgVacNoWarn envRuleReadFail).status = 500 := by
  decide

/-- C3 (amended): the decision-key read is guarded - a read failure or an
unparseable payload there falls through to the fresh evaluation exactly as a
miss does - but a per-rule key read failure inside the checks loop (line 260,
not guarded) marks the evaluation failed, and a failed loop state makes the
request answer 500. -/
theorem c3_theorem :
    (∀ cfg env u s64, env.query_user = some u → u ≠ "" → env.parsed = some s64 →
      env.cacheFail (decisionKey s64) = true →
      handle cfg env = freshEval cfg env s64) ∧
    (∀ cfg env u s64 v, env.query_user = some u → u ≠ "" → env.parsed = some s64 →
      env.cacheFail (decisionKey s64) = false →
      env.cacheInit (decisionKey s64) = some v → v ≠ "" →
      jsonParseTruthy v = none →
      handle cfg env = freshEval cfg env s64) ∧
    (∀ pa flags cf s64 st c detail, st.failed = false → applicable pa c = true →
      flags.lookup c.type = some detail → cf (checkKey s64 c.type) = true →
      (stepCheck pa flags cf s64 st c).failed = true) ∧
    (∀ cfg s64 pa calls st, st.failed = true →
      (finishEval cfg s64 pa calls st).status = 500) := by
  refine ⟨?_, ?_, ?_, ?_⟩
  · intro cfg env u s64 hq hu hp hcf
    have hread : decisionReadVal env s64 = none := by
      unfold decisionReadVal
      rw [hcf]
      rfl
    simp [handle, hq, hu, hp, hread]
  · intro cfg env u s64 v hq hu hp hcf hci hv hjp
    have hread : decisionReadVal env s64 = none := by
      unfold decisionReadVal
      rw [hcf, hci]
      simp [hv, hjp]
    simp [handle, hq, hu, hp, hread]
  · intro pa flags cf s64 st c detail h happ hlk hcf
    cases hca : c.authorized <;>
      simp [stepCheck, h, happ, hlk, hcf, hca]
  · intro cfg s64 pa calls st hf
    simp [finishEval, hf]

/-- C3 witness: each part of the amended claim at a concrete input - guarded
decision-read failure, guarded malformed decision payload, unguarded per-rule
read failure, and the 500 finish of a failed loop. -/
theorem c3_witness :
    handle cfgVacNoWarn envDecisionFail = freshEval cfgVacNoWarn envDecisionFail s64ex ∧
    handle cfgVacNoWarn envDecisionJunk = freshEval cfgVacNoWarn envDecisionJunk s64ex ∧
    (stepCheck none [("vacBans", "VAC bans on record")]
        (fun k => k == checkKey s64ex "vacBans") s64ex (initState (fun _ => none))
        ⟨"vacBans", false, none, none⟩).failed = true ∧
    (finishEval cfgVacNoWarn s64ex none 3
        ⟨true, [], fun _ => none, [], [], true⟩).status = 500 :=
  ⟨c3_theorem.1 _ _ "x" s64ex rfl (by decide) rfl (by decide),
    c3_theorem.2.1 _ _ "x" s64ex "junk" rfl (by decide) rfl (by decide) (by decide)
      (by decide) (by decide),
    c3_theorem.2.2.1 none _ _ s64ex _ _ "VAC bans on record" rfl (by decide)
      (by decide) (by decide),
    c3_theorem.2.2.2 _ s64ex none 3 _ rfl⟩

/-- An invalid-identifier environment: the SteamID parse fails. -/
def envInvalid : Env := { envBase with parsed := none }

/-- A single denying vacBans rule. -/
def cfgVacDeny : Config :=
  { authorizationCacheTime := 3600000
    authorizations := []
    checks := [checkVacDeny]
    hourThreshold := 9 }

/-- C9 counterexample: a malformed-identifier request and a denied fresh
evaluation both answer status 403 - the caller cannot distinguish InvalidInput
from Denied, refuting that InvalidInput is distinguishable from every other
outcome class. -/
theorem c9_counterexample :
    (handle cfgVacDeny envInvalid).status = 403 ∧
    (handle cfgVacDeny envBase).status = 403 ∧
    (handle cfgVacDeny envInvalid).status = (handle cfgVacDeny envBase).status := by
  decide

/-- C9 (amended): every request is answered with exactly one of the three
statuses 200 (Authorized), 403 (Denied or InvalidInput) and 500
(EvaluationFailed); a missing, empty or unparseable identifier answers 403, the
same status as a denial, so InvalidInput is distinguishable from Authorized and
EvaluationFailed but not from Denied. -/
theorem c9_theorem (cfg : Config) (env : Env) :
    ((handle cfg env).status = 200 ∨ (handle cfg env).status = 403 ∨
      (handle cfg env).status = 500) ∧
    ((env.query_user = none ∨ env.query_user = some "" ∨ env.parsed = none) →
      (handle cfg env).status = 403) := by
  have hfin : ∀ s64 pa calls st, (finishEval cfg s64 pa calls st).status = 200 ∨
      (finishEval cfg s64 pa calls st).status = 403 ∨
      (finishEval cfg s64 pa calls st).status = 500 := by
    intro s64 pa calls st
    unfold finishEval
    by_cases hf : st.failed = true
    · rw [if_pos hf]
      right; right; rfl
    · rw [if_neg hf]
      by_cases ha : finalAuthorized pa st = true
      · left
        simp [ha]
      · right; left
        simp [ha]
  have hfw : ∀ s64 paOpt, (freshEvalWith cfg env s64 paOpt).status = 200 ∨
      (freshEvalWith cfg env s64 paOpt).status = 403 ∨
      (freshEvalWith cfg env s64 paOpt).status = 500 := by
    intro s64 paOpt
    cases hcol : (collectPhase cfg env paOpt s64).outcome with
    | none =>
      rw [freshEvalWith_none cfg env s64 paOpt hcol]
      right; right; rfl
    | some flags =>
      rw [freshEvalWith_some cfg env s64 paOpt flags hcol]
      exact hfin s64 paOpt _ _
  constructor
  · cases hq : env.query_user with
    | none =>
      right; left
      simp [handle, hq, invalidResult]
    | some u =>
      by_cases hu : u = ""
      · right; left
        simp [handle, hq, hu, invalidResult]
      · cases hp : env.parsed with
        | none =>
          right; left
          simp [handle, hq, hu, hp, invalidResult]
        | some s64 =>
          cases hread : decisionReadVal env s64 with
          | some b =>
            cases b
            · right; left
              simp [handle, hq, hu, hp, hread]
            · left
              simp [handle, hq, hu, hp, hread]
          | none =>
            rw [handle_fresh cfg env u s64 hq hu hp hread]
            exact hfw s64 _
  · intro h
    rcases h with h | h | h
    · simp [handle, h, invalidResult]
    · simp [handle, h, invalidResult]
    · cases hq : env.query_user with
      | none => simp [handle, hq, invalidResult]
      | some u =>
        by_cases hu : u = ""
        · simp [handle, hq, hu, invalidResult]
        · simp [handle, hq, hu, h, invalidResult]

/-- C9 witness: the amended statement applied to the malformed-identifier
request. -/
theorem c9_witness :
    ((handle cfgVacDeny envInvalid).status = 200 ∨
      (handle cfgVacDeny envInvalid).status = 403 ∨
      (handle cfgVacDeny envInvalid).status = 500) ∧
    (handle cfgVacDeny envInvalid).status = 403 :=
  ⟨(c9_theorem cfgVacDeny envInvalid).1,
    (c9_theorem cfgVacDeny envInvalid).2 (Or.inr (Or.inr rfl))⟩

end OpenAuth
